import Mathlib

/-!
# Playground orchestration (`src/playground/src/playground.js`)

A shallow embedding of the wiring code of the playground: the runtime
selection path, the source-changed pipeline, the validation-result
subscribers, the initial-load handler, the format action and the
email import action.  Handlers are state transformers over an explicit `State`;
every call to a collaborator is recorded, in call order, in `State.log`.
Asynchronous collaborator calls (validation, formatting) are kept as lists
of calls in flight and are completed by separate transitions, in any order.
-/

namespace Playground

/-- Editor content: a JavaScript string. -/
abbrev Source := String

/-- A runtime object of the registry (`r.id`, `r.name`, `r.template`).
`ref` stands for the identity of the JavaScript object, which is what
`activeRuntime != newRuntime` compares: two records are the same runtime
exactly when they are equal as records, `ref` included. -/
structure Runtime where
  ref : Nat
  id : String
  name : String
  template : Source
deriving DecidableEq, Repr

/-- The outcome of one validation call (status and error list). -/
structure ValidationResult where
  status : String
  errors : List String
deriving DecidableEq, Repr

/-- Calls made to collaborators, as they appear in `playground.js`. -/
inductive Effect where
  | consoleError (msg : String)
  | publishSetRuntime (r : Runtime)
  | selectOption (id : String)
  | setSource (s : Source)
  | validate (s : Source)
  | previewRefresh (s : Source)
  | titleUpdate (s : Source)
  | cspHashUpdate (s : Source)
  | setValidationResult (v : ValidationResult)
  | autoImporterUpdate (v : ValidationResult)
  | emailButtonHidden (hidden : Bool)
  | format (s : Source)
  | unhandledRejection (msg : String)
  | alert (msg : String)
deriving DecidableEq, Repr

/-- The collaborators and flags the wiring code reads but does not define:
`runtimes.get`, `detectRuntime`, whether `preview` was created,
`modes.IS_VALIDATOR`, whether the `import-email` element exists, the result
the validator computes for a snapshot and the outcome of the formatter's
promise for a snapshot (`Except.error` is a rejection). -/
structure Env where
  get : String → Option Runtime
  detectRuntime : Source → Runtime
  hasPreview : Bool
  isValidator : Bool
  hasEmailButton : Bool
  validator : Source → ValidationResult
  formatter : Source → Except String Source

/-- The mutable state the wiring code acts on: the editor buffer, the
module variable `activeRuntime` (`none` while it is still `undefined`), the
option shown by the runtime selector, the `hidden` class of the email
button, the validation result shown by the editor, the validation and
format calls in flight (oldest first, each with the snapshot it was given),
and the log of collaborator calls. -/
structure State where
  source : Source
  activeRuntime : Option Runtime
  selectedOption : Option String
  emailButtonHidden : Bool
  validationResult : Option ValidationResult
  pendingValidations : List Source
  pendingFormats : List Source
  log : List Effect
deriving DecidableEq, Repr

/-- The state right after the module has been evaluated up to
`let activeRuntime;`, with `source` in the editor. -/
def State.initial (source : Source) : State :=
  { source := source, activeRuntime := none, selectedOption := none,
    emailButtonHidden := false, validationResult := none,
    pendingValidations := [], pendingFormats := [], log := [] }

/-- Record a collaborator call. -/
def emit (e : Effect) (st : State) : State :=
  { st with log := st.log ++ [e] }

/-- Modelled from the spec: the editing surface (`editor/editor.js`), whose
`setSource(Source)` replaces the buffer that `getSource()` returns; change
notifications are events raised by the surface on their own turn. -/
def editorSetSource (s : Source) (st : State) : State :=
  emit (Effect.setSource s) { st with source := s }

/-- Modelled from the spec: the validation collaborator
(`validator/validator.js`), `validate(Source) -> async ValidationResult`:
the call is recorded with its snapshot and completes later. -/
def validatorValidate (s : Source) (st : State) : State :=
  emit (Effect.validate s) { st with pendingValidations := st.pendingValidations ++ [s] }

/-- The subscriber of `EVENT_SET_RUNTIME` (lines 108-125). -/
def setRuntimeHandler (env : Env) (newRuntime : Runtime) (st : State) : State :=
  let st1 := emit (Effect.selectOption newRuntime.id)
    { st with selectedOption := some newRuntime.id }
  let st2 :=
    match st1.activeRuntime with
    | some active =>
      if active ≠ newRuntime ∧ active.template = st1.source then
        editorSetSource newRuntime.template st1
      else st1
    | none => st1
  let st3 := validatorValidate st2.source st2
  let st4 := { st3 with activeRuntime := some newRuntime }
  if env.hasEmailButton then
    emit (Effect.emailButtonHidden (decide (newRuntime.id ≠ "amp4email")))
      { st4 with emailButtonHidden := decide (newRuntime.id ≠ "amp4email") }
  else st4

/-- Modelled from the spec: the event bus (`events/events.js`), whose
`publish` invokes the subscribers of the topic synchronously in the calling
context; the subscriber of `EVENT_SET_RUNTIME` registered in this file is
`setRuntimeHandler`. -/
def eventsPublishSetRuntime (env : Env) (newRuntime : Runtime) (st : State) : State :=
  setRuntimeHandler env newRuntime (emit (Effect.publishSetRuntime newRuntime) st)

/-- The function `runtimeChanged` (lines 80-87); `runtimes.get` answers
`undefined` (here `none`) for an id it does not resolve, which is what the
error message is built from. -/
def runtimeChanged (env : Env) (runtimeId : String) (st : State) : State :=
  match env.get runtimeId with
  | none => emit (Effect.consoleError "unknown runtime: undefined") st
  | some newRuntime => eventsPublishSetRuntime env newRuntime st

/-- The function `editorUpdateListener` (lines 130-143). -/
def editorUpdateListener (env : Env) (st : State) : State :=
  let source := st.source
  let st1 := if env.hasPreview then emit (Effect.previewRefresh source) st else st
  let st2 := validatorValidate source st1
  let st3 := emit (Effect.titleUpdate source) st2
  if !env.isValidator then emit (Effect.cspHashUpdate source) st3 else st3

/-- The two subscribers of `Validator.EVENT_NEW_VALIDATION_RESULT`, in
registration order (lines 145-147 and 156-158). -/
def newValidationResultHandlers (v : ValidationResult) (st : State) : State :=
  emit (Effect.autoImporterUpdate v)
    (emit (Effect.setValidationResult v) { st with validationResult := some v })

/-- The subscriber of `Editor.EVENT_INPUT_NEW` (lines 148-153). -/
def inputNewHandler (env : Env) (st : State) : State :=
  let source := st.source
  let runtime := env.detectRuntime source
  editorUpdateListener env (runtimeChanged env runtime.id st)

/-- The function `formatSource` up to the point where it returns (lines
232-236): the formatter is called with the current source and the promise
is left in flight; nothing is returned to the caller. -/
def formatSource (st : State) : State :=
  emit (Effect.format st.source) { st with pendingFormats := st.pendingFormats ++ [st.source] }

/-- Completion of the `i`-th format call in flight: the `then` callback of
`formatSource` writes the formatted code to the editor; a rejection has no
handler attached. -/
def formatSettled (env : Env) (i : Nat) (st : State) : State :=
  match st.pendingFormats.get? i with
  | none => st
  | some snapshot =>
    let st1 := { st with pendingFormats := st.pendingFormats.eraseIdx i }
    match env.formatter snapshot with
    | Except.ok formattedCode => editorSetSource formattedCode st1
    | Except.error msg => emit (Effect.unhandledRejection msg) st1

/-- Modelled from the spec: completion of the `i`-th validation call in
flight; the validator (`validator/validator.js`) publishes
`EVENT_NEW_VALIDATION_RESULT` with the result computed for the snapshot the
call was given, and the bus runs the subscribers of this file. -/
def validationSettled (env : Env) (i : Nat) (st : State) : State :=
  match st.pendingValidations.get? i with
  | none => st
  | some snapshot =>
    newValidationResultHandlers (env.validator snapshot)
      { st with pendingValidations := st.pendingValidations.eraseIdx i }

/-- How the promise of `emailLoader.loadEmailFromFile()` settles. -/
inductive LoadOutcome where
  | resolved (content : Source)
  | rejected (message : String)
deriving DecidableEq, Repr

/-- Modelled from the spec: the email loader
(`email-loader/email-loader.js`), created over the editor, whose
`loadEmailFromFile` on success puts the loaded content into the editor. -/
def emailLoaderResolved (content : Source) (st : State) : State :=
  editorSetSource content st

/-- The function `loadEmail` (lines 240-245) once the loader's promise has
settled.  `then(formatSource)` starts a format call and resolves with what
`formatSource` returns, which is `undefined`, so `catch` receives the
loader's rejection only. -/
def loadEmail (outcome : LoadOutcome) (st : State) : State :=
  match outcome with
  | LoadOutcome.resolved content => formatSource (emailLoaderResolved content st)
  | LoadOutcome.rejected message => emit (Effect.alert ("Error loading email: " ++ message)) st

/-- One turn of the event loop. -/
inductive Action where
  | inputChange (s : Source)
  | inputNew (s : Source)
  | selectRuntime (runtimeId : String)
  | validationSettled (i : Nat)
  | formatClick
  | formatSettled (i : Nat)
  | emailLoaded (outcome : LoadOutcome)
deriving DecidableEq, Repr

/-- Run one turn: `inputChange s` and `inputNew s` are the editing surface
changing its buffer to `s` and raising `EVENT_INPUT_CHANGE`, respectively
`EVENT_INPUT_NEW`. -/
def step (env : Env) (st : State) : Action → State
  | Action.inputChange s => editorUpdateListener env { st with source := s }
  | Action.inputNew s => inputNewHandler env { st with source := s }
  | Action.selectRuntime runtimeId => runtimeChanged env runtimeId st
  | Action.validationSettled i => validationSettled env i st
  | Action.formatClick => formatSource st
  | Action.formatSettled i => formatSettled env i st
  | Action.emailLoaded outcome => loadEmail outcome st

/-- Run a sequence of turns. -/
def run (env : Env) (st : State) (acts : List Action) : State :=
  acts.foldl (step env) st

/-- A source edit, or the completion of the oldest validation call in flight. -/
def Action.isEditOrOldestValidation : Action → Bool
  | Action.inputChange _ => true
  | Action.validationSettled 0 => true
  | _ => false

/-- Runtimes and collaborators used in the concrete examples. -/
def rtA : Runtime := { ref := 0, id := "amphtml", name := "Websites", template := "<A/>" }

/-- A second example runtime. -/
def rtB : Runtime := { ref := 1, id := "amp4email", name := "Email", template := "<B/>" }

/-- An example environment: the registry holds `rtA` and `rtB`, the detector
always answers `rtB`, the validator reports its snapshot as the only error
and the formatter appends a semicolon. -/
def envEx : Env :=
  { get := fun i => if i = "amphtml" then some rtA else if i = "amp4email" then some rtB else none,
    detectRuntime := fun _ => rtB,
    hasPreview := true,
    isValidator := false,
    hasEmailButton := true,
    validator := fun s => { status := "FAIL", errors := [s] },
    formatter := fun s => Except.ok (s ++ ";") }

/-- The example environment with a formatter whose promise rejects. -/
def envReject : Env :=
  { envEx with formatter := fun _ => Except.error "format failed" }

/-- The validation calls in flight end with the call for the current source
or, when none is in flight, the editor shows the result computed for the
current source. -/
def ValidationUpToDate (env : Env) (st : State) : Prop :=
  match st.pendingValidations.getLast? with
  | some snapshot => snapshot = st.source
  | none => st.validationResult = some (env.validator st.source)

/-- Whether a logged call is a validation request. -/
def Effect.isValidate : Effect → Bool
  | Effect.validate _ => true
  | _ => false

/-! ## The runtime-changed handler -/

theorem setRuntimeHandler_source (env : Env) (newRuntime : Runtime) (st : State) :
    (setRuntimeHandler env newRuntime st).source =
      match st.activeRuntime with
      | some active =>
        if active ≠ newRuntime ∧ active.template = st.source then newRuntime.template
        else st.source
      | none => st.source := by
  unfold setRuntimeHandler
  cases hA : st.activeRuntime with
  | none => cases env.hasEmailButton <;> simp [emit, validatorValidate, hA]
  | some active =>
    by_cases hc : active ≠ newRuntime ∧ active.template = st.source
    · cases env.hasEmailButton <;> simp [emit, validatorValidate, editorSetSource, hA, hc]
    · cases env.hasEmailButton <;> simp [emit, validatorValidate, editorSetSource, hA, hc]

theorem setRuntimeHandler_activeRuntime (env : Env) (newRuntime : Runtime) (st : State) :
    (setRuntimeHandler env newRuntime st).activeRuntime = some newRuntime := by
  unfold setRuntimeHandler
  cases env.hasEmailButton <;> simp [emit]

theorem setRuntimeHandler_pendingValidations (env : Env) (newRuntime : Runtime) (st : State) :
    (setRuntimeHandler env newRuntime st).pendingValidations =
      st.pendingValidations ++ [(setRuntimeHandler env newRuntime st).source] := by
  unfold setRuntimeHandler
  cases hA : st.activeRuntime with
  | none => cases env.hasEmailButton <;> simp [emit, validatorValidate, hA]
  | some active =>
    by_cases hc : active ≠ newRuntime ∧ active.template = st.source
    · cases env.hasEmailButton <;> simp [emit, validatorValidate, editorSetSource, hA, hc]
    · cases env.hasEmailButton <;> simp [emit, validatorValidate, editorSetSource, hA, hc]

/-- C1: with a previous active runtime `A` recorded, after the
runtime-changed handler has run for `B` the editor source is `B`'s template
if it was identical to `A`'s template, and is untouched if it differed. -/
theorem runtime_switch_replaces_only_unchanged_template (env : Env) (A B : Runtime)
    (st : State) (hA : st.activeRuntime = some A) :
    (st.source = A.template → (setRuntimeHandler env B st).source = B.template) ∧
    (st.source ≠ A.template → (setRuntimeHandler env B st).source = st.source) := by
  rw [setRuntimeHandler_source, hA]
  constructor
  · intro hs
    by_cases hAB : A = B
    · subst hAB
      simp [hs]
    · simp [hAB, hs]
  · intro hs
    have hs2 : ¬ A.template = st.source := fun h => hs h.symm
    simp [hs2]

theorem runtime_switch_replaces_only_unchanged_template_witness :
    (setRuntimeHandler envEx rtB
        { State.initial "<A/>" with activeRuntime := some rtA }).source = "<B/>" ∧
    (setRuntimeHandler envEx rtB
        { State.initial "<A/>custom" with activeRuntime := some rtA }).source = "<A/>custom" :=
  ⟨(runtime_switch_replaces_only_unchanged_template envEx rtA rtB
      { State.initial "<A/>" with activeRuntime := some rtA } rfl).1 rfl,
   (runtime_switch_replaces_only_unchanged_template envEx rtA rtB
      { State.initial "<A/>custom" with activeRuntime := some rtA } rfl).2 (by decide)⟩

/-- C3: for a runtime id that `runtimes.get` does not resolve,
`runtimeChanged` logs one console error and does nothing else: no
runtime-changed event is published, and the active runtime and the editor
source (indeed every other part of the state) are as before. -/
theorem runtimeChanged_unknown_id_changes_nothing (env : Env) (runtimeId : String)
    (st : State) (h : env.get runtimeId = none) :
    runtimeChanged env runtimeId st =
        { st with log := st.log ++ [Effect.consoleError "unknown runtime: undefined"] } ∧
    (runtimeChanged env runtimeId st).activeRuntime = st.activeRuntime ∧
    (runtimeChanged env runtimeId st).source = st.source ∧
    (∀ r, Effect.publishSetRuntime r ∉ (runtimeChanged env runtimeId st).log.drop st.log.length) := by
  simp [runtimeChanged, h, emit]

theorem runtimeChanged_unknown_id_changes_nothing_witness :
    runtimeChanged envEx "amp4ads" { State.initial "<A/>" with activeRuntime := some rtA } =
        { State.initial "<A/>" with
            activeRuntime := some rtA,
            log := [Effect.consoleError "unknown runtime: undefined"] } :=
  (runtimeChanged_unknown_id_changes_nothing envEx "amp4ads"
    { State.initial "<A/>" with activeRuntime := some rtA } (by decide)).1

/-- C9: every run of the runtime-changed handler issues exactly one
validation request, and its argument is the editor source as it stands when
the handler finishes, whether or not the template replacement happened. -/
theorem setRuntimeHandler_validates_final_source_once (env : Env) (R : Runtime) (st : State) :
    ((setRuntimeHandler env R st).log.drop st.log.length).filter Effect.isValidate =
        [Effect.validate (setRuntimeHandler env R st).source] ∧
    (setRuntimeHandler env R st).pendingValidations =
        st.pendingValidations ++ [(setRuntimeHandler env R st).source] := by
  refine ⟨?_, setRuntimeHandler_pendingValidations env R st⟩
  unfold setRuntimeHandler
  cases hA : st.activeRuntime with
  | none =>
    cases env.hasEmailButton <;>
      simp [emit, validatorValidate, hA, List.filter_cons, Effect.isValidate]
  | some active =>
    by_cases hc : active ≠ R ∧ active.template = st.source
    · cases env.hasEmailButton <;>
        simp [emit, validatorValidate, editorSetSource, hA, hc, List.filter_cons,
          Effect.isValidate]
    · cases env.hasEmailButton <;>
        simp [emit, validatorValidate, editorSetSource, hA, hc, List.filter_cons,
          Effect.isValidate]

/-- C10: handling the runtime-changed event for `R` twice in a row leaves
the editor source and the recorded active runtime (and the selector and the
email button) exactly as handling it once does, from every state, the one
with no active runtime included; an event for the runtime that is already
active never changes the source. -/
theorem setRuntimeHandler_idempotent (env : Env) (R : Runtime) (st : State) :
    (setRuntimeHandler env R (setRuntimeHandler env R st)).source =
        (setRuntimeHandler env R st).source ∧
    (setRuntimeHandler env R (setRuntimeHandler env R st)).activeRuntime =
        (setRuntimeHandler env R st).activeRuntime ∧
    (setRuntimeHandler env R { st with activeRuntime := some R }).source = st.source := by
  refine ⟨?_, ?_, ?_⟩
  · rw [setRuntimeHandler_source env R (setRuntimeHandler env R st),
      setRuntimeHandler_activeRuntime]
    simp
  · simp [setRuntimeHandler_activeRuntime]
  · rw [setRuntimeHandler_source]
    simp

/-! ## The source-changed pipeline and the initial load -/

theorem editorUpdateListener_source (env : Env) (st : State) :
    (editorUpdateListener env st).source = st.source := by
  unfold editorUpdateListener
  cases env.hasPreview <;> cases env.isValidator <;> simp [emit, validatorValidate]

theorem editorUpdateListener_activeRuntime (env : Env) (st : State) :
    (editorUpdateListener env st).activeRuntime = st.activeRuntime := by
  unfold editorUpdateListener
  cases env.hasPreview <;> cases env.isValidator <;> simp [emit, validatorValidate]

/-- C4, as stated, fails: runtime `rtA` is active, the loaded content is
identical to the template of `rtA` and the detector answers `rtB`, which the
registry resolves; after the initial-load handler the active runtime is
`rtB` but the editor holds the template of `rtB`, not the loaded content. -/
theorem initial_load_not_verbatim :
    envEx.detectRuntime "<A/>" = rtB ∧ envEx.get rtB.id = some rtB ∧
    (inputNewHandler envEx
        { State.initial "<A/>" with activeRuntime := some rtA }).activeRuntime = some rtB ∧
    (inputNewHandler envEx
        { State.initial "<A/>" with activeRuntime := some rtA }).source = "<B/>" ∧
    (inputNewHandler envEx
        { State.initial "<A/>" with activeRuntime := some rtA }).source ≠ "<A/>" := by
  decide

/-- C4, amended: with runtime `A` active, loaded content `c` in the editor
and `D` the runtime the detector returns for `c` and the registry resolves,
after the initial-load handler the active runtime is `D`, and the editor
source is `c` verbatim unless `c` is identical to the template of `A` and
`D` is a different runtime, in which case it is the template of `D`. -/
theorem initial_load_applies_runtime_switch_rule (env : Env) (A D : Runtime) (st : State)
    (hA : st.activeRuntime = some A) (hD : env.detectRuntime st.source = D)
    (hget : env.get D.id = some D) :
    (inputNewHandler env st).activeRuntime = some D ∧
    (inputNewHandler env st).source =
      if A ≠ D ∧ A.template = st.source then D.template else st.source := by
  unfold inputNewHandler
  simp only [hD, editorUpdateListener_source, editorUpdateListener_activeRuntime,
    runtimeChanged, eventsPublishSetRuntime, hget, setRuntimeHandler_activeRuntime,
    setRuntimeHandler_source]
  simp [emit, hA]

theorem initial_load_applies_runtime_switch_rule_witness :
    (inputNewHandler envEx
        { State.initial "<p>mail</p>" with activeRuntime := some rtA }).activeRuntime
      = some rtB ∧
    (inputNewHandler envEx
        { State.initial "<p>mail</p>" with activeRuntime := some rtA }).source =
      "<p>mail</p>" :=
  ⟨(initial_load_applies_runtime_switch_rule envEx rtA rtB
      { State.initial "<p>mail</p>" with activeRuntime := some rtA } rfl rfl (by decide)).1,
   (initial_load_applies_runtime_switch_rule envEx rtA rtB
      { State.initial "<p>mail</p>" with activeRuntime := some rtA } rfl rfl (by decide)).2.trans
      (by decide)⟩

/-- C5, as stated, fails: the source-changed handler requests validation
before it updates the title, not after. -/
theorem editorUpdateListener_order_not_title_first :
    (editorUpdateListener envEx (State.initial "<A/>")).log =
      [Effect.previewRefresh "<A/>", Effect.validate "<A/>", Effect.titleUpdate "<A/>",
        Effect.cspHashUpdate "<A/>"] ∧
    (editorUpdateListener envEx (State.initial "<A/>")).log ≠
      [Effect.previewRefresh "<A/>", Effect.titleUpdate "<A/>", Effect.validate "<A/>",
        Effect.cspHashUpdate "<A/>"] := by
  decide

/-- C5, amended: on a source-changed event with current source `s` the
handler calls, in this order, the preview refresh (when a preview exists),
the validation request, the title update and then the hash recomputation,
each with `s`; the hash recomputation is called if and only if the system is
not in validator-only mode. -/
theorem editorUpdateListener_call_order (env : Env) (st : State) :
    (editorUpdateListener env st).log =
      st.log ++ (if env.hasPreview then [Effect.previewRefresh st.source] else []) ++
        [Effect.validate st.source, Effect.titleUpdate st.source] ++
        (if env.isValidator then [] else [Effect.cspHashUpdate st.source]) := by
  unfold editorUpdateListener
  cases env.hasPreview <;> cases env.isValidator <;> simp [emit, validatorValidate]

/-! ## Validation results -/

theorem editorUpdateListener_pendingValidations (env : Env) (st : State) :
    (editorUpdateListener env st).pendingValidations = st.pendingValidations ++ [st.source] := by
  unfold editorUpdateListener
  cases env.hasPreview <;> cases env.isValidator <;> simp [emit, validatorValidate]

theorem validationUpToDate_inputChange (env : Env) (st : State) (s : Source) :
    ValidationUpToDate env (step env st (Action.inputChange s)) := by
  simp [ValidationUpToDate, step, editorUpdateListener_pendingValidations,
    editorUpdateListener_source]

theorem validationUpToDate_oldestSettled (env : Env) (st : State)
    (h : ValidationUpToDate env st) :
    ValidationUpToDate env (step env st (Action.validationSettled 0)) := by
  unfold ValidationUpToDate at h ⊢
  cases hp : st.pendingValidations with
  | nil => simpa [step, validationSettled, hp] using h
  | cons t rest =>
    cases rest with
    | nil =>
      simp [hp] at h
      simp [step, validationSettled, hp, newValidationResultHandlers, emit, h]
    | cons u rest2 =>
      rw [hp, List.getLast?_cons_cons] at h
      cases hl : (u :: rest2).getLast? with
      | none => simp at hl
      | some x =>
        rw [hl] at h
        simp [step, validationSettled, hp, newValidationResultHandlers, emit, hl, h]

theorem validationUpToDate_run (env : Env) (acts : List Action) :
    ∀ st : State, (∀ a ∈ acts, a.isEditOrOldestValidation = true) →
      ValidationUpToDate env st → ValidationUpToDate env (run env st acts) := by
  induction acts with
  | nil => intro st _ h; simpa [run] using h
  | cons a rest ih =>
    intro st hacts h
    have ha : a.isEditOrOldestValidation = true := hacts a (List.mem_cons_self a rest)
    have hrest : ∀ b ∈ rest, b.isEditOrOldestValidation = true :=
      fun b hb => hacts b (List.mem_cons_of_mem a hb)
    have hstep : ValidationUpToDate env (step env st a) := by
      cases a with
      | inputChange s => exact validationUpToDate_inputChange env st s
      | validationSettled i =>
        cases i with
        | zero => exact validationUpToDate_oldestSettled env st h
        | succ n => simp [Action.isEditOrOldestValidation] at ha
      | inputNew s => simp [Action.isEditOrOldestValidation] at ha
      | selectRuntime r => simp [Action.isEditOrOldestValidation] at ha
      | formatClick => simp [Action.isEditOrOldestValidation] at ha
      | formatSettled i => simp [Action.isEditOrOldestValidation] at ha
      | emailLoaded o => simp [Action.isEditOrOldestValidation] at ha
    simpa [run] using ih (step env st a) hrest hstep

/-- C2, as stated, fails: after the edits "a" and "b", the validation call
for "b" resolves and then the call for "a" resolves; no call is pending, the
source is "b", and the editor shows the result computed for "a". -/
theorem stale_validation_result_displayed :
    (run envEx (State.initial "")
        [Action.inputChange "a", Action.inputChange "b", Action.validationSettled 1,
          Action.validationSettled 0]).pendingValidations = [] ∧
    (run envEx (State.initial "")
        [Action.inputChange "a", Action.inputChange "b", Action.validationSettled 1,
          Action.validationSettled 0]).source = "b" ∧
    (run envEx (State.initial "")
        [Action.inputChange "a", Action.inputChange "b", Action.validationSettled 1,
          Action.validationSettled 0]).validationResult = some (envEx.validator "a") ∧
    envEx.validator "a" ≠ envEx.validator "b" := by
  decide

/-- C2, amended: for every sequence of source edits whose validation calls
complete in the order in which they were issued (each completion is that of
the oldest call in flight), interleaved in any way with the edits, once no
validation call is pending the editor shows the result computed from the
most recent source snapshot. -/
theorem validation_in_order_displays_latest (env : Env) (st : State) (s : Source)
    (acts : List Action) (hacts : ∀ a ∈ acts, a.isEditOrOldestValidation = true)
    (hsettled : (run env st (Action.inputChange s :: acts)).pendingValidations = []) :
    (run env st (Action.inputChange s :: acts)).validationResult =
      some (env.validator (run env st (Action.inputChange s :: acts)).source) := by
  have h : ValidationUpToDate env (run env st (Action.inputChange s :: acts)) := by
    have h1 := validationUpToDate_run env acts (step env st (Action.inputChange s)) hacts
      (validationUpToDate_inputChange env st s)
    simpa [run] using h1
  unfold ValidationUpToDate at h
  rw [hsettled] at h
  simpa using h

theorem validation_in_order_displays_latest_witness :
    (run envEx (State.initial "")
        [Action.inputChange "a", Action.inputChange "b", Action.validationSettled 0,
          Action.validationSettled 0]).validationResult = some (envEx.validator "b") :=
  (validation_in_order_displays_latest envEx (State.initial "") "a"
    [Action.inputChange "b", Action.validationSettled 0, Action.validationSettled 0]
    (by decide) (by decide)).trans (by decide)

/-! ## The format action and the email import -/

/-- C7, as stated, fails: a format request is started on "a", the source is
edited to "b" and a second request is started before the first completes;
the second call completes (the source becomes "b;") and then the first one
does: its output "a;", computed from a source that is no longer current, is
written to the editor. -/
theorem stale_format_output_written :
    (run envEx (State.initial "a")
        [Action.formatClick, Action.inputChange "b", Action.formatClick]).pendingFormats
      = ["a", "b"] ∧
    (run envEx (State.initial "a")
        [Action.formatClick, Action.inputChange "b", Action.formatClick,
          Action.formatSettled 1]).source = "b;" ∧
    (run envEx (State.initial "a")
        [Action.formatClick, Action.inputChange "b", Action.formatClick,
          Action.formatSettled 1, Action.formatSettled 0]).source = "a;" := by
  decide

theorem formatSettled_resolved (env : Env) (st : State) (i : Nat) (snapshot out : Source)
    (hi : st.pendingFormats.get? i = some snapshot)
    (hf : env.formatter snapshot = Except.ok out) :
    formatSettled env i st =
      { st with source := out, pendingFormats := st.pendingFormats.eraseIdx i,
                log := st.log ++ [Effect.setSource out] } := by
  unfold formatSettled
  rw [hi]
  simp only [hf, editorSetSource, emit]

/-- C7, amended: every formatter result that resolves is written to the
editor source when it arrives, whatever the source is at that moment and
whatever other calls are in flight (the state afterwards is the state before
with the source replaced by the result, that call removed from the calls in
flight and one `setSource` logged).  Hence, for two format requests in
flight, the first for snapshot `a` and the second for snapshot `b`, each
arrival writes its own output, and after both calls have completed the
source is the output of the call that completed last: the second request's
output if they complete in the order they were started, the first
(superseded) request's output if they complete in the opposite order. -/
theorem format_result_written_on_arrival (env : Env) :
    (∀ (st : State) (i : Nat) (snapshot out : Source),
      st.pendingFormats.get? i = some snapshot → env.formatter snapshot = Except.ok out →
        formatSettled env i st =
            { st with source := out, pendingFormats := st.pendingFormats.eraseIdx i,
                      log := st.log ++ [Effect.setSource out] } ∧
        (formatSettled env i st).source = out) ∧
    (∀ (st : State) (a b fa fb : Source),
      st.pendingFormats = [a, b] → env.formatter a = Except.ok fa →
        env.formatter b = Except.ok fb →
          (formatSettled env 0 st).source = fa ∧
          (formatSettled env 1 st).source = fb ∧
          (formatSettled env 0 (formatSettled env 0 st)).source = fb ∧
          (formatSettled env 0 (formatSettled env 1 st)).source = fa) := by
  constructor
  · intro st i snapshot out hi hf
    have h := formatSettled_resolved env st i snapshot out hi hf
    exact ⟨h, by rw [h]⟩
  · intro st a b fa fb hp ha hb
    have h0 := formatSettled_resolved env st 0 a fa (by simp [hp]) ha
    have h1 := formatSettled_resolved env st 1 b fb (by simp [hp]) hb
    refine ⟨by rw [h0], by rw [h1], ?_, ?_⟩
    · rw [formatSettled_resolved env (formatSettled env 0 st) 0 b fb (by simp [h0, hp]) hb]
    · rw [formatSettled_resolved env (formatSettled env 1 st) 0 a fa (by simp [h1, hp]) ha]

theorem format_result_written_on_arrival_witness :
    (formatSettled envEx 0
        (run envEx (State.initial "a")
          [Action.formatClick, Action.inputChange "b", Action.formatClick])).source = "a;" ∧
    ((formatSettled envEx 0
        (run envEx (State.initial "a")
          [Action.formatClick, Action.inputChange "b", Action.formatClick])).source = "a;" ∧
      (formatSettled envEx 1
        (run envEx (State.initial "a")
          [Action.formatClick, Action.inputChange "b", Action.formatClick])).source = "b;" ∧
      (formatSettled envEx 0 (formatSettled envEx 0
        (run envEx (State.initial "a")
          [Action.formatClick, Action.inputChange "b", Action.formatClick]))).source = "b;" ∧
      (formatSettled envEx 0 (formatSettled envEx 1
        (run envEx (State.initial "a")
          [Action.formatClick, Action.inputChange "b", Action.formatClick]))).source = "a;") :=
  ⟨((format_result_written_on_arrival envEx).1
      (run envEx (State.initial "a")
        [Action.formatClick, Action.inputChange "b", Action.formatClick])
      0 "a" "a;" (by decide) rfl).2,
   (format_result_written_on_arrival envEx).2
      (run envEx (State.initial "a")
        [Action.formatClick, Action.inputChange "b", Action.formatClick])
      "a" "b" "a;" "b;" (by decide) rfl rfl⟩

/-- C6, evaluated where the code diverges: the format action is run on
"x=1" and the formatter's promise rejects; the source is still "x=1", but
the only calls made are the formatter call and the unhandled rejection: no
notification is shown. -/
theorem format_rejection_not_surfaced :
    (run envReject (State.initial "x=1") [Action.formatClick, Action.formatSettled 0]).source
      = "x=1" ∧
    (run envReject (State.initial "x=1") [Action.formatClick, Action.formatSettled 0]).log
      = [Effect.format "x=1", Effect.unhandledRejection "format failed"] := by
  decide

/-- C8, evaluated where the code diverges: the email loads ("mail" replaces
"old" in the editor), the format call started by `then(formatSource)`
rejects; no alert is shown, and the editor holds the loaded content. -/
theorem email_import_format_failure_not_surfaced :
    (run envReject (State.initial "old")
        [Action.emailLoaded (LoadOutcome.resolved "mail"), Action.formatSettled 0]).log
      = [Effect.setSource "mail", Effect.format "mail",
          Effect.unhandledRejection "format failed"] ∧
    (run envReject (State.initial "old")
        [Action.emailLoaded (LoadOutcome.resolved "mail"), Action.formatSettled 0]).source
      = "mail" := by
  decide

end Playground
